import Mathlib

/-!
Shallow embedding of the position risk-management core of the BTC short
straddle bot (src/main.py): the `OrderTracker` position store, the
break-even computation `DeltaExchangeClient.calculate_break_even_price`,
the adjustment procedure `TelegramBot.handle_stop_triggered`, and the
polling loop `TelegramBot.monitor_stop_orders`.

Modelling conventions:
- Python numeric values (floats) are modelled as `Rat`; every number the
  claims touch is exact in both representations.
- The per-leg dicts built by `execute_short_straddle` are modelled by the
  structure `Leg`, with `Option` for keys that may be absent (a missing
  `strike_price` key makes `calculate_break_even_price` raise, caught and
  turned into `0.0`; `premium_received` is read with `.get(_, 0)`).
- `OrderTracker.active_positions` is the store; its other fields
  (`stop_orders`, `monitoring_tasks`) are never read by the modelled
  operations and are omitted.
- Network I/O (`cancel_order`, `place_stop_order`, `get_order_status`,
  `send_message`) is modelled by oracles for the responses plus a trace of
  emitted `Action`s.  Message texts are formatting glue; each
  `send_message` call site is recorded as a distinct tag.
- `asyncio` exceptions from `get_order_status` inside the monitor loop are
  modelled by `QueryResult.raise_exc`; they propagate to the
  function-level handler of `monitor_stop_orders`, which logs and returns
  (`MonitorExit.excepted`).
-/

namespace Straddle

/-- One leg dict of a straddle position (the `call_data` / `put_data`
dicts of `execute_short_straddle`). -/
structure Leg where
  product_id : Nat
  strike_price : Option Rat
  premium_received : Option Rat
  stop_order_id : Option String
  stop_price : Option Rat
  break_even_stop : Option Rat
deriving DecidableEq, Repr

/-- A tracked position: the value stored in
`OrderTracker.active_positions[position_id]` (the `created_at` timestamp
is not modelled; no modelled operation reads it). -/
structure PositionData where
  call : Leg
  put : Leg
  status : String
  stop_triggered : Option String
deriving DecidableEq, Repr

/-- The `active_positions` dict of `OrderTracker`. -/
abbrev Store := String → Option PositionData

/-- Pointwise dict update (`self.active_positions[position_id] = ...`). -/
def set_position (s : Store) (pid : String) (pd : PositionData) : Store :=
  fun k => if k = pid then some pd else s k

/-- `OrderTracker.add_position`: unconditionally stores a fresh record
with status `active` and no triggered marker. -/
def add_position (s : Store) (pid : String) (call_data put_data : Leg) : Store :=
  set_position s pid
    { call := call_data, put := put_data, status := "active", stop_triggered := none }

/-- `OrderTracker.get_position`: `self.active_positions.get(position_id)`. -/
def get_position (s : Store) (pid : String) : Option PositionData :=
  s pid

/-- `OrderTracker.mark_stop_triggered`: if the id is present, set the
`stop_triggered` marker and force status to `adjusting`. -/
def mark_stop_triggered (s : Store) (pid : String) (option_type : String) : Store :=
  match s pid with
  | none => s
  | some pd =>
      set_position s pid
        { pd with stop_triggered := some option_type, status := "adjusting" }

/-- `DeltaExchangeClient.calculate_break_even_price`.  For a triggered
call the surviving put gets `put strike - put premium`; otherwise the
surviving call gets `call strike + call premium`.  A missing strike key
raises `KeyError` in Python, caught by the `except` clause which returns
`0.0`; a missing premium key defaults to `0` via `.get`. -/
def calculate_break_even_price (position_data : PositionData) (option_type : String) : Rat :=
  if option_type = "call" then
    match position_data.put.strike_price with
    | none => 0
    | some strike => strike - position_data.put.premium_received.getD 0
  else
    match position_data.call.strike_price with
    | none => 0
    | some strike => strike + position_data.call.premium_received.getD 0

/-- Observable side effects of the core: each outbound call of
`handle_stop_triggered` / `monitor_stop_orders`.  `send_message` texts
are replaced by a tag naming the call site; `invoke_adjust` marks the
monitor's call of `handle_stop_triggered`. -/
inductive Action where
  | send_message (tag : String)
  | cancel_order (order_id : String) (product_id : Nat)
  | place_stop_order (product_id : Nat) (side : String) (size : Nat)
      (stop_price : Rat) (limit_price : Rat)
  | query_order_status (order_id : String)
  | invoke_adjust (leg : String)
deriving DecidableEq, Repr

/-- Exchange response to the `place_stop_order` call: a success dict
carrying the new order id, or a non-success dict. -/
inductive PlaceStopOutcome where
  | ok (order_id : String)
  | err
deriving DecidableEq, Repr

/-- Oracle for the two exchange responses an adjustment run can consume:
the `cancel_order` response's success flag and the `place_stop_order`
response. -/
structure AdjustInputs where
  cancel_success : Bool
  place_result : PlaceStopOutcome
deriving DecidableEq, Repr

/-- The `if remaining_stop_id:` block of `handle_stop_triggered`: cancel
the surviving leg's existing stop order (when one is recorded) and report
the outcome; on a non-success response the code only warns and
continues. -/
def cancel_actions (remaining_data : Leg) (cancel_success : Bool) : List Action :=
  match remaining_data.stop_order_id with
  | none => []
  | some oid =>
      Action.cancel_order oid remaining_data.product_id ::
        (if cancel_success then [Action.send_message "cancel_ok"]
         else [Action.send_message "cancel_failed"])

/-- `TelegramBot.handle_stop_triggered`: marks the trigger, notifies,
cancels the surviving leg's old stop (warning on failure, then
continuing), computes the break-even price, and if it is positive places
the new stop, updating the stored leg and status on success.  Returns the
updated store and the trace of outbound calls, in program order. -/
def handle_stop_triggered (s : Store) (pid : String) (triggered_option : String)
    (g : AdjustInputs) : Store × List Action :=
  match get_position s pid with
  | none => (s, [])
  | some pd =>
      let pd1 : PositionData :=
        { pd with stop_triggered := some triggered_option, status := "adjusting" }
      let s1 := mark_stop_triggered s pid triggered_option
      let remaining_is_put := triggered_option = "call"
      let remaining_data := if remaining_is_put then pd1.put else pd1.call
      let cancel_acts := cancel_actions remaining_data g.cancel_success
      let break_even_price := calculate_break_even_price pd1 triggered_option
      if 0 < break_even_price then
        let place_act :=
          Action.place_stop_order remaining_data.product_id "buy" 1
            break_even_price (break_even_price * (101 / 100))
        match g.place_result with
        | PlaceStopOutcome.ok new_id =>
            let new_leg :=
              { remaining_data with
                  stop_order_id := some new_id, break_even_stop := some break_even_price }
            let pd2 :=
              if remaining_is_put then
                { pd1 with put := new_leg, status := "break_even_adjusted" }
              else
                { pd1 with call := new_leg, status := "break_even_adjusted" }
            (set_position s1 pid pd2,
             Action.send_message "stop_loss_triggered" :: cancel_acts ++
               [place_act, Action.send_message "break_even_success"])
        | PlaceStopOutcome.err =>
            (s1,
             Action.send_message "stop_loss_triggered" :: cancel_acts ++
               [place_act, Action.send_message "break_even_failed"])
      else
        (s1,
         Action.send_message "stop_loss_triggered" :: cancel_acts ++
           [Action.send_message "break_even_not_computable"])

/-- Outcome of one `get_order_status` await inside the monitor loop: a
raised transport exception, or a response dict with its success flag and
`result.state` field. -/
inductive QueryResult where
  | raise_exc
  | resp (success : Bool) (state : String)
deriving DecidableEq, Repr

/-- Oracle data consumed by one iteration of the monitor's while loop:
the two possible order-status responses and the adjustment responses
should `handle_stop_triggered` run in this cycle. -/
structure CycleEnv where
  call_q : QueryResult
  put_q : QueryResult
  adj : AdjustInputs
deriving DecidableEq, Repr

/-- How a monitor run ended: normal return (loop condition false or
`break`), the function-level `except` handler (a raised exception), or
the supplied cycle oracle ran out while the loop would have continued. -/
inductive MonitorExit where
  | finished
  | excepted
  | fuel_out
deriving DecidableEq, Repr

/-- Result of the per-leg block inside one loop iteration (the
`if call_stop_id: ...` / `if put_stop_id: ...` bodies). -/
inductive LegCheck where
  | triggered (acts : List Action) (s : Store)
  | excepted (acts : List Action)
  | pass (acts : List Action)

/-- One leg's status check within a cycle: query the stop order (if the
captured id is set); a raised exception aborts the whole loop; a
successful response in state `filled` runs `handle_stop_triggered`
followed by `break`. -/
def leg_check (s : Store) (pid : String) (which : String)
    (leg_stop_id : Option String) (q : QueryResult) (adj : AdjustInputs) : LegCheck :=
  match leg_stop_id with
  | none => LegCheck.pass []
  | some oid =>
      match q with
      | QueryResult.raise_exc => LegCheck.excepted [Action.query_order_status oid]
      | QueryResult.resp ok st =>
          if ok = true ∧ st = "filled" then
            let r := handle_stop_triggered s pid which adj
            LegCheck.triggered
              (Action.query_order_status oid :: Action.invoke_adjust which :: r.2) r.1
          else LegCheck.pass [Action.query_order_status oid]

/-- The `while position_data['status'] == 'active'` loop of
`monitor_stop_orders`.  `call_id` and `put_id` are the stop order ids
captured once before the loop; the cycle list supplies one oracle per
30-second iteration.  The call leg is always checked first; a trigger
handles the adjustment synchronously and then breaks. -/
def monitor_loop (pid : String) (call_id put_id : Option String) :
    List CycleEnv → Store → Store × List Action × MonitorExit
  | [], s => (s, [], MonitorExit.fuel_out)
  | env :: rest, s =>
      match get_position s pid with
      | none => (s, [], MonitorExit.finished)
      | some pd =>
          if pd.status = "active" then
            match leg_check s pid "call" call_id env.call_q env.adj with
            | LegCheck.triggered acts s1 => (s1, acts, MonitorExit.finished)
            | LegCheck.excepted acts => (s, acts, MonitorExit.excepted)
            | LegCheck.pass acts1 =>
                match leg_check s pid "put" put_id env.put_q env.adj with
                | LegCheck.triggered acts s1 => (s1, acts1 ++ acts, MonitorExit.finished)
                | LegCheck.excepted acts => (s, acts1 ++ acts, MonitorExit.excepted)
                | LegCheck.pass acts2 =>
                    let r := monitor_loop pid call_id put_id rest s
                    (r.1, acts1 ++ acts2 ++ r.2.1, r.2.2)
          else (s, [], MonitorExit.finished)

/-- `TelegramBot.monitor_stop_orders`: fetch the position (returning at
once when absent), capture both legs' stop order ids, and run the polling
loop. -/
def monitor_stop_orders (s : Store) (pid : String) (envs : List CycleEnv) :
    Store × List Action × MonitorExit :=
  match get_position s pid with
  | none => (s, [], MonitorExit.finished)
  | some pd =>
      monitor_loop pid pd.call.stop_order_id pd.put.stop_order_id envs s

/-- Selector: is this action a `place_stop_order` call? -/
def is_place_order (a : Action) : Bool :=
  match a with
  | Action.place_stop_order _ _ _ _ _ => true
  | _ => false

/-- Selector: the order id of a `query_order_status` action. -/
def query_id (a : Action) : Option String :=
  match a with
  | Action.query_order_status oid => some oid
  | _ => none

/-- Selector: the leg of an `invoke_adjust` marker. -/
def invoked_leg (a : Action) : Option String :=
  match a with
  | Action.invoke_adjust w => some w
  | _ => none

/-- Order ids queried over a trace, in order. -/
def queries_of (acts : List Action) : List String :=
  acts.filterMap query_id

/-- Legs for which `handle_stop_triggered` was invoked over a trace. -/
def adjust_invocations (acts : List Action) : List String :=
  acts.filterMap invoked_leg

/-- Number of `place_stop_order` calls in a trace. -/
def place_calls (acts : List Action) : Nat :=
  (acts.filter is_place_order).length

/-! ### Concrete fixture

The position of the spec's worked example: Call strike 65000, Put strike
64000, premium 500 received on each leg, with active stop orders on
both legs. -/

/-- Call-leg dict of the worked example. -/
def ex_call_leg : Leg :=
  { product_id := 101, strike_price := some 65000, premium_received := some 500,
    stop_order_id := some "cs1", stop_price := some 625, break_even_stop := none }

/-- Put-leg dict of the worked example. -/
def ex_put_leg : Leg :=
  { product_id := 102, strike_price := some 64000, premium_received := some 500,
    stop_order_id := some "ps1", stop_price := some 625, break_even_stop := none }

/-- Empty `active_positions` dict. -/
def empty_store : Store := fun _ => none

/-- Store holding the worked-example position under id `pos1`. -/
def ex_store : Store := add_position empty_store "pos1" ex_call_leg ex_put_leg

/-- The worked-example position record as stored by `add_position`. -/
def ex_pd : PositionData :=
  { call := ex_call_leg, put := ex_put_leg, status := "active", stop_triggered := none }

/-! ### Further fixtures: adjustment oracles and a position with a missing strike -/

/-- Oracle: cancel response not successful, placement successful. -/
def g_cancel_fail : AdjustInputs :=
  { cancel_success := false, place_result := PlaceStopOutcome.ok "new1" }

/-- Oracle: cancel response successful, placement not successful. -/
def g_place_fail : AdjustInputs :=
  { cancel_success := true, place_result := PlaceStopOutcome.err }

/-- Oracle: both responses successful; new stop order id `new1`. -/
def g_ok : AdjustInputs :=
  { cancel_success := true, place_result := PlaceStopOutcome.ok "new1" }

/-- Oracle: both responses successful; new stop order id `new2`. -/
def g_ok2 : AdjustInputs :=
  { cancel_success := true, place_result := PlaceStopOutcome.ok "new2" }

/-- A put-leg dict whose `strike_price` key is absent, making the
break-even computation raise and return `0.0`. -/
def missing_put_leg : Leg :=
  { product_id := 202, strike_price := none, premium_received := some 500,
    stop_order_id := some "ps9", stop_price := some 625, break_even_stop := none }

/-- Store holding a position whose put leg has no strike data. -/
def missing_store : Store := add_position empty_store "pos9" ex_call_leg missing_put_leg

/-- The record stored in `missing_store` under id `pos9`. -/
def missing_pd : PositionData :=
  { call := ex_call_leg, put := missing_put_leg, status := "active", stop_triggered := none }

/-- The surviving put leg after a successful break-even adjustment with
new order id `nid` and break-even price `be`: `stop_order_id` is
replaced, `break_even_stop` is newly set, every other field — including
`stop_price` — keeps its old value. -/
def adjusted_put (pd : PositionData) (nid : String) (be : Rat) : Leg :=
  { pd.put with stop_order_id := some nid, break_even_stop := some be }

/-- Cycle oracle: the call-leg status query raises a transport error. -/
def env_raise : CycleEnv :=
  { call_q := QueryResult.raise_exc, put_q := QueryResult.resp true "open", adj := g_ok }

/-- Cycle oracle: both stop orders report state `open`. -/
def env_quiet : CycleEnv :=
  { call_q := QueryResult.resp true "open", put_q := QueryResult.resp true "open",
    adj := g_ok }

/-- Cycle oracle: both stop orders report `filled` in the same cycle (the
double-trigger race of the claims). -/
def env_call_filled : CycleEnv :=
  { call_q := QueryResult.resp true "filled", put_q := QueryResult.resp true "filled",
    adj := g_ok }

/-! ### Helper lemmas shared by the claim theorems -/

theorem get_set_position (s : Store) (pid : String) (pd : PositionData) :
    get_position (set_position s pid pd) pid = some pd := by
  simp [get_position, set_position]

theorem mark_stop_triggered_present (s : Store) (pid : String) (pd : PositionData)
    (t : String) (h : s pid = some pd) :
    mark_stop_triggered s pid t =
      set_position s pid { pd with stop_triggered := some t, status := "adjusting" } := by
  unfold mark_stop_triggered
  rw [h]

theorem calculate_break_even_mark (pd : PositionData) (t a : String) (m : Option String) :
    calculate_break_even_price { pd with stop_triggered := m, status := a } t =
      calculate_break_even_price pd t := by
  simp [calculate_break_even_price]

theorem place_calls_nil : place_calls [] = 0 := rfl

theorem place_calls_append (l1 l2 : List Action) :
    place_calls (l1 ++ l2) = place_calls l1 + place_calls l2 := by
  simp [place_calls, List.filter_append]

theorem place_calls_cons_of_not (a : Action) (l : List Action)
    (h : is_place_order a = false) : place_calls (a :: l) = place_calls l := by
  simp [place_calls, List.filter_cons, h]

theorem queries_of_append (l1 l2 : List Action) :
    queries_of (l1 ++ l2) = queries_of l1 ++ queries_of l2 := by
  simp [queries_of]

theorem adjust_invocations_append (l1 l2 : List Action) :
    adjust_invocations (l1 ++ l2) = adjust_invocations l1 ++ adjust_invocations l2 := by
  simp [adjust_invocations]

theorem queries_of_nil : queries_of [] = [] := rfl

theorem queries_of_cons_none (a : Action) (l : List Action) (h : query_id a = none) :
    queries_of (a :: l) = queries_of l := by
  simp [queries_of, List.filterMap_cons, h]

theorem queries_of_cons_some (a : Action) (oid : String) (l : List Action)
    (h : query_id a = some oid) :
    queries_of (a :: l) = oid :: queries_of l := by
  simp [queries_of, List.filterMap_cons, h]

theorem adjust_invocations_nil : adjust_invocations [] = [] := rfl

theorem adjust_invocations_cons_none (a : Action) (l : List Action)
    (h : invoked_leg a = none) :
    adjust_invocations (a :: l) = adjust_invocations l := by
  simp [adjust_invocations, List.filterMap_cons, h]

theorem adjust_invocations_cons_some (a : Action) (w : String) (l : List Action)
    (h : invoked_leg a = some w) :
    adjust_invocations (a :: l) = w :: adjust_invocations l := by
  simp [adjust_invocations, List.filterMap_cons, h]

theorem cancel_actions_place_calls (rd : Leg) (b : Bool) :
    place_calls (cancel_actions rd b) = 0 := by
  unfold cancel_actions
  cases rd.stop_order_id <;> cases b <;> simp [place_calls, is_place_order]

theorem cancel_actions_no_query (rd : Leg) (b : Bool) :
    ∀ a ∈ cancel_actions rd b, query_id a = none := by
  unfold cancel_actions
  cases rd.stop_order_id <;> cases b <;> simp [query_id]

theorem cancel_actions_no_invoke (rd : Leg) (b : Bool) :
    ∀ a ∈ cancel_actions rd b, invoked_leg a = none := by
  unfold cancel_actions
  cases rd.stop_order_id <;> cases b <;> simp [invoked_leg]

theorem handle_no_invoke (s : Store) (pid t : String) (g : AdjustInputs) :
    adjust_invocations (handle_stop_triggered s pid t g).2 = [] := by
  unfold handle_stop_triggered
  cases h : get_position s pid with
  | none => simp [adjust_invocations]
  | some pd =>
      simp only []
      split
      · split <;>
          · simp [adjust_invocations, invoked_leg]
            exact cancel_actions_no_invoke _ _
      · simp [adjust_invocations, invoked_leg]
        exact cancel_actions_no_invoke _ _

theorem handle_no_query (s : Store) (pid t : String) (g : AdjustInputs) :
    queries_of (handle_stop_triggered s pid t g).2 = [] := by
  unfold handle_stop_triggered
  cases h : get_position s pid with
  | none => simp [queries_of]
  | some pd =>
      simp only []
      split
      · split <;>
          · simp [queries_of, query_id]
            exact cancel_actions_no_query _ _
      · simp [queries_of, query_id]
        exact cancel_actions_no_query _ _

theorem leg_check_triggered_acts (s : Store) (pid which : String) (lid : Option String)
    (q : QueryResult) (adj : AdjustInputs) (acts : List Action) (s1 : Store)
    (hlc : leg_check s pid which lid q adj = LegCheck.triggered acts s1) :
    ∃ oid, lid = some oid ∧
      acts = Action.query_order_status oid :: Action.invoke_adjust which ::
        (handle_stop_triggered s pid which adj).2 ∧
      s1 = (handle_stop_triggered s pid which adj).1 := by
  unfold leg_check at hlc
  cases lid with
  | none => exact absurd hlc (by simp)
  | some oid =>
      cases q with
      | raise_exc => exact absurd hlc (by simp)
      | resp ok st =>
          dsimp only at hlc
          by_cases hf : ok = true ∧ st = "filled"
          · rw [if_pos hf] at hlc
            injection hlc with h1 h2
            exact ⟨oid, rfl, h1.symm, h2.symm⟩
          · rw [if_neg hf] at hlc
            exact absurd hlc (by simp)

theorem leg_check_excepted_acts (s : Store) (pid which : String) (lid : Option String)
    (q : QueryResult) (adj : AdjustInputs) (acts : List Action)
    (hlc : leg_check s pid which lid q adj = LegCheck.excepted acts) :
    ∃ oid, lid = some oid ∧ acts = [Action.query_order_status oid] := by
  unfold leg_check at hlc
  cases lid with
  | none => exact absurd hlc (by simp)
  | some oid =>
      cases q with
      | raise_exc =>
          injection hlc with h1
          exact ⟨oid, rfl, h1.symm⟩
      | resp ok st =>
          dsimp only at hlc
          by_cases hf : ok = true ∧ st = "filled"
          · rw [if_pos hf] at hlc
            exact absurd hlc (by simp)
          · rw [if_neg hf] at hlc
            exact absurd hlc (by simp)

theorem leg_check_pass_acts (s : Store) (pid which : String) (lid : Option String)
    (q : QueryResult) (adj : AdjustInputs) (acts : List Action)
    (hlc : leg_check s pid which lid q adj = LegCheck.pass acts) :
    acts = [] ∨ ∃ oid, lid = some oid ∧ acts = [Action.query_order_status oid] := by
  unfold leg_check at hlc
  cases lid with
  | none =>
      injection hlc with h1
      exact Or.inl h1.symm
  | some oid =>
      cases q with
      | raise_exc => exact absurd hlc (by simp)
      | resp ok st =>
          dsimp only at hlc
          by_cases hf : ok = true ∧ st = "filled"
          · rw [if_pos hf] at hlc
            exact absurd hlc (by simp)
          · rw [if_neg hf] at hlc
            injection hlc with h1
            exact Or.inr ⟨oid, rfl, h1.symm⟩

theorem leg_check_triggered_invocations (s : Store) (pid which : String)
    (lid : Option String) (q : QueryResult) (adj : AdjustInputs) (acts : List Action)
    (s1 : Store) (hlc : leg_check s pid which lid q adj = LegCheck.triggered acts s1) :
    adjust_invocations acts = [which] := by
  obtain ⟨oid, -, hacts, -⟩ := leg_check_triggered_acts s pid which lid q adj acts s1 hlc
  subst hacts
  rw [adjust_invocations_cons_none (Action.query_order_status oid) _ (by rfl),
    adjust_invocations_cons_some (Action.invoke_adjust which) which _ (by rfl),
    handle_no_invoke]

theorem leg_check_excepted_invocations (s : Store) (pid which : String)
    (lid : Option String) (q : QueryResult) (adj : AdjustInputs) (acts : List Action)
    (hlc : leg_check s pid which lid q adj = LegCheck.excepted acts) :
    adjust_invocations acts = [] := by
  obtain ⟨oid, -, hacts⟩ := leg_check_excepted_acts s pid which lid q adj acts hlc
  subst hacts
  rfl

theorem leg_check_pass_invocations (s : Store) (pid which : String)
    (lid : Option String) (q : QueryResult) (adj : AdjustInputs) (acts : List Action)
    (hlc : leg_check s pid which lid q adj = LegCheck.pass acts) :
    adjust_invocations acts = [] := by
  rcases leg_check_pass_acts s pid which lid q adj acts hlc with h | ⟨oid, -, h⟩ <;>
    · subst h
      rfl

theorem leg_check_raise (s : Store) (pid which cid : String) (adj : AdjustInputs) :
    leg_check s pid which (some cid) QueryResult.raise_exc adj =
      LegCheck.excepted [Action.query_order_status cid] := rfl

theorem leg_check_filled (s : Store) (pid which cid : String) (adj : AdjustInputs) :
    leg_check s pid which (some cid) (QueryResult.resp true "filled") adj =
      LegCheck.triggered
        (Action.query_order_status cid :: Action.invoke_adjust which ::
          (handle_stop_triggered s pid which adj).2)
        (handle_stop_triggered s pid which adj).1 := by
  unfold leg_check
  dsimp only
  rw [if_pos ⟨rfl, rfl⟩]

theorem leg_check_not_filled (s : Store) (pid which cid : String) (ok : Bool)
    (st : String) (adj : AdjustInputs) (hnf : ¬(ok = true ∧ st = "filled")) :
    leg_check s pid which (some cid) (QueryResult.resp ok st) adj =
      LegCheck.pass [Action.query_order_status cid] := by
  unfold leg_check
  dsimp only
  rw [if_neg hnf]

theorem monitor_loop_cons (pid : String) (ci pu : Option String) (env : CycleEnv)
    (rest : List CycleEnv) (s : Store) (pd : PositionData)
    (h : get_position s pid = some pd) (hst : pd.status = "active") :
    monitor_loop pid ci pu (env :: rest) s =
      (match leg_check s pid "call" ci env.call_q env.adj with
       | LegCheck.triggered acts s1 => (s1, acts, MonitorExit.finished)
       | LegCheck.excepted acts => (s, acts, MonitorExit.excepted)
       | LegCheck.pass acts1 =>
           match leg_check s pid "put" pu env.put_q env.adj with
           | LegCheck.triggered acts s1 => (s1, acts1 ++ acts, MonitorExit.finished)
           | LegCheck.excepted acts => (s, acts1 ++ acts, MonitorExit.excepted)
           | LegCheck.pass acts2 =>
               let r := monitor_loop pid ci pu rest s
               (r.1, acts1 ++ acts2 ++ r.2.1, r.2.2)) := by
  conv =>
    lhs
    unfold monitor_loop
  rw [h]
  dsimp only
  rw [if_pos hst]

theorem monitor_trigger_first_cycle (s : Store) (pid : String) (pd : PositionData)
    (cid : String) (env : CycleEnv) (rest : List CycleEnv)
    (h : get_position s pid = some pd)
    (hst : pd.status = "active")
    (hcid : pd.call.stop_order_id = some cid)
    (hq : env.call_q = QueryResult.resp true "filled") :
    monitor_stop_orders s pid (env :: rest) =
      ((handle_stop_triggered s pid "call" env.adj).1,
       Action.query_order_status cid :: Action.invoke_adjust "call" ::
         (handle_stop_triggered s pid "call" env.adj).2,
       MonitorExit.finished) := by
  unfold monitor_stop_orders
  rw [h]
  dsimp only
  rw [hcid, monitor_loop_cons pid _ _ env rest s pd h hst, hq, leg_check_filled]

/-! ### Claims -/

/-- C1: claim states `calculate_break_even_price` returns, for a
surviving Put, Call strike + both premiums (66000 on the worked
example), and for a surviving Call, Put strike − both premiums (63000).
The code returns neither: it uses only the surviving leg's own strike
and premium. -/
theorem C1_counterexample :
    calculate_break_even_price ex_pd "call" ≠ 65000 + (500 + 500) ∧
    calculate_break_even_price ex_pd "put" ≠ 64000 - (500 + 500) := by
  constructor <;>
    · simp only [calculate_break_even_price, ex_pd, ex_call_leg, ex_put_leg]
      norm_num
      try decide

/-- C1 (amended): when the surviving leg is the Put (Call leg
triggered), `calculate_break_even_price` returns the Put leg's own
strike minus the Put leg's own `premium_received` (defaulting to 0 when
absent); when the surviving leg is the Call, it returns the Call leg's
own strike plus the Call leg's own `premium_received`. -/
theorem C1_surviving_leg_formula (pd : PositionData) (ps cs : Rat)
    (hp : pd.put.strike_price = some ps) (hc : pd.call.strike_price = some cs) :
    calculate_break_even_price pd "call" = ps - pd.put.premium_received.getD 0 ∧
    calculate_break_even_price pd "put" = cs + pd.call.premium_received.getD 0 := by
  constructor <;> simp [calculate_break_even_price, hp, hc, String.reduceEq]

/-- C1 witness: the amended formula evaluated on the worked example. -/
theorem C1_surviving_leg_formula_witness :
    calculate_break_even_price ex_pd "call" = 64000 - (500 : Rat) ∧
    calculate_break_even_price ex_pd "put" = 65000 + (500 : Rat) := by
  have h := C1_surviving_leg_formula ex_pd 64000 65000 (by rfl) (by rfl)
  simpa [ex_pd, ex_put_leg, ex_call_leg] using h

/-- C2: the claim's concrete values 63000 (Call triggered) and 66000
(Put triggered) do not match the code, which returns 63500 and 65500 on
the same position. -/
theorem C2_counterexample :
    calculate_break_even_price ex_pd "call" ≠ 63000 ∧
    calculate_break_even_price ex_pd "put" ≠ 66000 := by
  constructor <;>
    · simp only [calculate_break_even_price, ex_pd, ex_call_leg, ex_put_leg]
      norm_num
      try decide

/-- C2 (amended): on the position with Call strike 65000, Put strike
64000 and premium 500 on each leg, a triggered Call yields break-even
63500 (= 64000 − 500) for the surviving Put, and a triggered Put yields
65500 (= 65000 + 500) for the surviving Call; the result is a pure
function of the position data and triggered side. -/
theorem C2_concrete_break_even :
    calculate_break_even_price ex_pd "call" = 63500 ∧
    calculate_break_even_price ex_pd "put" = 65500 := by
  constructor <;>
    · simp only [calculate_break_even_price, ex_pd, ex_call_leg, ex_put_leg]
      norm_num
      try decide

/-- C3: the claim says a failed cancel of the surviving leg's stop
aborts the adjustment with status `AdjustmentFailed` and no
`place_stop_order` call.  In the code a non-success cancel response only
produces a warning message; the run continues, places the new stop, and
ends with status `break_even_adjusted`. -/
theorem C3_counterexample :
    0 < place_calls (handle_stop_triggered ex_store "pos1" "call" g_cancel_fail).2 ∧
    ((handle_stop_triggered ex_store "pos1" "call" g_cancel_fail).1 "pos1").map
        PositionData.status = some "break_even_adjusted" := by
  constructor <;>
    norm_num [handle_stop_triggered, get_position, mark_stop_triggered, set_position,
      add_position, ex_store, empty_store, ex_call_leg, ex_put_leg,
      calculate_break_even_price, g_cancel_fail, cancel_actions, place_calls,
      is_place_order]

/-- C3 (amended): when cancelling the surviving leg's stop returns a
non-success response, the code sends the `cancel_failed` warning and
continues: with a positive break-even price it still calls
`place_stop_order` for the surviving leg; no AdjustmentFailed-like
status exists in the code. -/
theorem C3_cancel_fail_continues (s : Store) (pid : String) (pd : PositionData)
    (g : AdjustInputs) (oid : String)
    (h : get_position s pid = some pd)
    (hsid : pd.put.stop_order_id = some oid)
    (hc : g.cancel_success = false)
    (hbe : 0 < calculate_break_even_price pd "call") :
    Action.send_message "cancel_failed" ∈ (handle_stop_triggered s pid "call" g).2 ∧
    0 < place_calls (handle_stop_triggered s pid "call" g).2 := by
  have h' : s pid = some pd := h
  unfold handle_stop_triggered
  rw [h]
  simp only [mark_stop_triggered_present s pid pd _ h', calculate_break_even_mark]
  rw [if_pos hbe]
  cases hpr : g.place_result with
  | ok nid =>
      constructor <;>
        simp [cancel_actions, hsid, hc, place_calls, is_place_order, String.reduceEq]
  | err =>
      constructor <;>
        simp [cancel_actions, hsid, hc, place_calls, is_place_order, String.reduceEq]

/-- C3 witness: the amended behavior on the worked example. -/
theorem C3_cancel_fail_continues_witness :
    Action.send_message "cancel_failed" ∈
      (handle_stop_triggered ex_store "pos1" "call" g_cancel_fail).2 ∧
    0 < place_calls (handle_stop_triggered ex_store "pos1" "call" g_cancel_fail).2 := by
  refine C3_cancel_fail_continues ex_store "pos1" ex_pd g_cancel_fail "ps1" (by rfl)
    (by rfl) (by rfl) ?_
  simp only [calculate_break_even_price, ex_pd, ex_call_leg, ex_put_leg]
  norm_num

/-- C5: the claim says that after a successful cancel and a failed
placement, status becomes `AdjustmentFailed`.  The code never assigns
such a status: the position is left with the non-terminal status
`adjusting` (the surviving leg's old `stop_order_id` is indeed
retained). -/
theorem C5_counterexample :
    ((handle_stop_triggered ex_store "pos1" "call" g_place_fail).1 "pos1").map
        PositionData.status = some "adjusting" ∧
    some "adjusting" ≠ some "adjustment_failed" ∧
    ((handle_stop_triggered ex_store "pos1" "call" g_place_fail).1 "pos1").map
        (fun q => q.put.stop_order_id) = some (some "ps1") := by
  refine ⟨?_, by decide, ?_⟩ <;>
    norm_num [handle_stop_triggered, get_position, mark_stop_triggered, set_position,
      add_position, ex_store, empty_store, ex_call_leg, ex_put_leg,
      calculate_break_even_price, g_place_fail, cancel_actions]

/-- C5 (amended): when the cancel response succeeds but the placement
response fails, the position read back through `get_position` has status
`adjusting` (there is no AdjustmentFailed status in the code) and the
surviving leg's `stop_order_id` still holds the old — now cancelled —
order id. -/
theorem C5_place_fail_state (s : Store) (pid : String) (pd : PositionData)
    (g : AdjustInputs) (oid : String)
    (h : get_position s pid = some pd)
    (hsid : pd.put.stop_order_id = some oid)
    (_hc : g.cancel_success = true)
    (hpr : g.place_result = PlaceStopOutcome.err)
    (hbe : 0 < calculate_break_even_price pd "call") :
    (get_position (handle_stop_triggered s pid "call" g).1 pid).map
        PositionData.status = some "adjusting" ∧
    (get_position (handle_stop_triggered s pid "call" g).1 pid).map
        (fun q => q.put.stop_order_id) = some (some oid) := by
  have h' : s pid = some pd := h
  unfold handle_stop_triggered
  rw [h]
  simp only [mark_stop_triggered_present s pid pd _ h', calculate_break_even_mark]
  rw [if_pos hbe]
  simp [hpr, get_set_position, hsid]

/-- C5 witness: the amended behavior on the worked example. -/
theorem C5_place_fail_state_witness :
    (get_position (handle_stop_triggered ex_store "pos1" "call" g_place_fail).1
        "pos1").map PositionData.status = some "adjusting" ∧
    (get_position (handle_stop_triggered ex_store "pos1" "call" g_place_fail).1
        "pos1").map (fun q => q.put.stop_order_id) = some (some "ps1") := by
  refine C5_place_fail_state ex_store "pos1" ex_pd g_place_fail "ps1" (by rfl)
    (by rfl) (by rfl) (by rfl) ?_
  simp only [calculate_break_even_price, ex_pd, ex_call_leg, ex_put_leg]
  norm_num

/-- C8: the claim says a successful placement updates the surviving
leg's `stop_order_id` and `stop_price` in lockstep.  The code updates
`stop_order_id` but writes the new trigger price to a separate
`break_even_stop` key; the leg's `stop_price` keeps its old value (625
here, not the new trigger price 63500). -/
theorem C8_counterexample :
    ((handle_stop_triggered ex_store "pos1" "call" g_ok).1 "pos1").map
        (fun q => q.put.stop_order_id) = some (some "new1") ∧
    ((handle_stop_triggered ex_store "pos1" "call" g_ok).1 "pos1").map
        (fun q => q.put.stop_price) = some (some 625) ∧
    ((handle_stop_triggered ex_store "pos1" "call" g_ok).1 "pos1").map
        (fun q => q.put.stop_price) ≠ some (some 63500) := by
  refine ⟨?_, ?_, ?_⟩ <;>
    norm_num [handle_stop_triggered, get_position, mark_stop_triggered, set_position,
      add_position, ex_store, empty_store, ex_call_leg, ex_put_leg,
      calculate_break_even_price, g_ok, cancel_actions]

/-- C8 (amended): on a successful placement the surviving leg's
`stop_order_id` becomes the new order id and the new trigger price is
recorded in the separate `break_even_stop` field, while the leg's
`stop_price` field keeps its old value; the status becomes
`break_even_adjusted` and the success notification is sent. -/
theorem C8_success_updates (s : Store) (pid : String) (pd : PositionData)
    (g : AdjustInputs) (nid : String)
    (h : get_position s pid = some pd)
    (hpr : g.place_result = PlaceStopOutcome.ok nid)
    (hbe : 0 < calculate_break_even_price pd "call") :
    get_position (handle_stop_triggered s pid "call" g).1 pid =
      some { call := pd.call,
             put := adjusted_put pd nid (calculate_break_even_price pd "call"),
             status := "break_even_adjusted", stop_triggered := some "call" } ∧
    Action.send_message "break_even_success" ∈ (handle_stop_triggered s pid "call" g).2 := by
  have h' : s pid = some pd := h
  unfold handle_stop_triggered
  rw [h]
  simp only [mark_stop_triggered_present s pid pd _ h', calculate_break_even_mark]
  rw [if_pos hbe]
  simp [hpr, get_set_position, adjusted_put, String.reduceEq]

/-- C8 witness: the amended behavior on the worked example. -/
theorem C8_success_updates_witness :
    get_position (handle_stop_triggered ex_store "pos1" "call" g_ok).1 "pos1" =
      some { call := ex_pd.call,
             put := adjusted_put ex_pd "new1" (calculate_break_even_price ex_pd "call"),
             status := "break_even_adjusted", stop_triggered := some "call" } ∧
    Action.send_message "break_even_success" ∈
      (handle_stop_triggered ex_store "pos1" "call" g_ok).2 := by
  refine C8_success_updates ex_store "pos1" ex_pd g_ok "new1" (by rfl) (by rfl) ?_
  simp only [calculate_break_even_price, ex_pd, ex_call_leg, ex_put_leg]
  norm_num

/-- C9: the claim says creating a position under an existing id fails
with DuplicateId and leaves the stored position unchanged.
`add_position` has no failure path: a second call with the same id
silently replaces the stored record. -/
theorem C9_counterexample :
    get_position (add_position ex_store "pos1" ex_put_leg ex_call_leg) "pos1" ≠
      get_position ex_store "pos1" := by
  simp [get_position, add_position, set_position, ex_store, empty_store,
    ex_call_leg, ex_put_leg]

/-- C9 (amended): `add_position` on an id already present does not fail
and does not preserve the old record: it overwrites the entry with a
fresh record built from the new leg data, status `active` and no
triggered marker. -/
theorem C9_add_position_overwrites (s : Store) (pid : String) (c1 p1 c2 p2 : Leg) :
    get_position (add_position (add_position s pid c1 p1) pid c2 p2) pid =
      some { call := c2, put := p2, status := "active", stop_triggered := none } := by
  simp [get_position, add_position, set_position]

/-- C10: a non-positive break-even price (as produced when the strike
or premium data is missing and the computation falls back to 0.0) makes
`handle_stop_triggered` skip the `place_stop_order` call entirely and
leave the position in the non-terminal status `adjusting`. -/
theorem C10_nonpositive_break_even (s : Store) (pid : String) (pd : PositionData)
    (t : String) (g : AdjustInputs)
    (h : get_position s pid = some pd)
    (hbe : calculate_break_even_price pd t ≤ 0) :
    place_calls (handle_stop_triggered s pid t g).2 = 0 ∧
    (get_position (handle_stop_triggered s pid t g).1 pid).map PositionData.status =
      some "adjusting" := by
  have h' : s pid = some pd := h
  unfold handle_stop_triggered
  rw [h]
  simp only [mark_stop_triggered_present s pid pd t h', calculate_break_even_mark]
  rw [if_neg (not_lt.mpr hbe)]
  constructor
  · dsimp only
    rw [place_calls_append,
      place_calls_cons_of_not (Action.send_message "stop_loss_triggered") _ (by rfl),
      cancel_actions_place_calls]
    rfl
  · simp [get_set_position]

/-- C10 witness: a position whose put leg has no strike data makes the
break-even computation return 0; the run places nothing and the status
stays `adjusting`. -/
theorem C10_nonpositive_break_even_witness :
    place_calls (handle_stop_triggered missing_store "pos9" "call" g_ok).2 = 0 ∧
    (get_position (handle_stop_triggered missing_store "pos9" "call" g_ok).1
        "pos9").map PositionData.status = some "adjusting" := by
  refine C10_nonpositive_break_even missing_store "pos9" missing_pd "call" g_ok
    (by rfl) ?_
  simp [calculate_break_even_price, missing_pd, missing_put_leg]


/-- C4: the claim says a raised transient error while querying a leg's
stop order is absorbed for that cycle and the Monitor retries next
interval.  In the code the `try/except` wraps the whole `while` loop, so
the exception terminates polling: with a second cycle of oracle data
available, only the one query before the exception is ever issued (the
position's stored state is unchanged). -/
theorem C4_counterexample :
    (monitor_stop_orders ex_store "pos1" [env_raise, env_quiet]).2.2 =
      MonitorExit.excepted ∧
    queries_of (monitor_stop_orders ex_store "pos1" [env_raise, env_quiet]).2.1 =
      ["cs1"] ∧
    (monitor_stop_orders ex_store "pos1" [env_raise, env_quiet]).1 "pos1" =
      some ex_pd := by
  have h : get_position ex_store "pos1" = some ex_pd := rfl
  have run : monitor_stop_orders ex_store "pos1" [env_raise, env_quiet] =
      (ex_store, [Action.query_order_status "cs1"], MonitorExit.excepted) := by
    unfold monitor_stop_orders
    rw [h]
    dsimp only
    rw [show ex_pd.call.stop_order_id = some "cs1" from rfl,
      monitor_loop_cons "pos1" _ _ env_raise [env_quiet] ex_store ex_pd h rfl,
      show env_raise.call_q = QueryResult.raise_exc from rfl, leg_check_raise]
  rw [run]
  exact ⟨rfl, rfl, rfl⟩

/-- C4 (amended): a raised error on a stop-order query inside the
monitor loop escapes the loop to the function-level handler, which logs
and returns: the run ends with `MonitorExit.excepted` after that single
query, the remaining poll cycles are never consumed, and the store is
left untouched. -/
theorem C4_exception_terminates_monitor (s : Store) (pid : String)
    (pd : PositionData) (cid : String) (env : CycleEnv) (rest : List CycleEnv)
    (h : get_position s pid = some pd)
    (hst : pd.status = "active")
    (hcid : pd.call.stop_order_id = some cid)
    (hq : env.call_q = QueryResult.raise_exc) :
    monitor_stop_orders s pid (env :: rest) =
      (s, [Action.query_order_status cid], MonitorExit.excepted) := by
  unfold monitor_stop_orders
  rw [h]
  dsimp only
  rw [hcid, monitor_loop_cons pid _ _ env rest s pd h hst, hq, leg_check_raise]

/-- C4 witness: the amended behavior on the worked example with one
spare cycle of oracle data. -/
theorem C4_exception_terminates_monitor_witness :
    monitor_stop_orders ex_store "pos1" [env_raise, env_quiet] =
      (ex_store, [Action.query_order_status "cs1"], MonitorExit.excepted) :=
  C4_exception_terminates_monitor ex_store "pos1" ex_pd "cs1" env_raise [env_quiet]
    rfl rfl rfl rfl

/-- C6: the claim says the triggered-leg marker is set at most once and
a second trigger detection is a no-op.  `mark_stop_triggered` has no
guard: a second detection overwrites the marker (here from `call` to
`put`) and a second `handle_stop_triggered` run performs a full second
adjustment, placing another stop order. -/
theorem C6_counterexample :
    ((mark_stop_triggered (mark_stop_triggered ex_store "pos1" "call") "pos1" "put")
        "pos1").map PositionData.stop_triggered = some (some "put") ∧
    some (some "put") ≠ some (some "call") ∧
    0 < place_calls (handle_stop_triggered
        (handle_stop_triggered ex_store "pos1" "call" g_ok).1 "pos1" "put" g_ok2).2 := by
  exact ⟨by rfl, by decide, by with_unfolding_all decide⟩

/-- C6 (amended): within a single run of the monitor's polling loop at
most one adjustment is invoked (the loop breaks after the first
trigger), but the marker itself is unguarded: a second
`mark_stop_triggered` on the same position overwrites `stop_triggered`
and resets the status to `adjusting`. -/
theorem C6_single_invocation_unguarded_marker :
    (∀ (pid : String) (ci pu : Option String) (envs : List CycleEnv) (s : Store),
      (adjust_invocations (monitor_loop pid ci pu envs s).2.1).length ≤ 1) ∧
    (∀ (s : Store) (pid : String) (pd : PositionData) (a b : String),
      s pid = some pd →
      mark_stop_triggered (mark_stop_triggered s pid a) pid b pid =
        some { pd with stop_triggered := some b, status := "adjusting" }) := by
  constructor
  · intro pid ci pu envs
    induction envs with
    | nil =>
        intro s
        simp [monitor_loop, adjust_invocations]
    | cons env rest ih =>
        intro s
        cases h : get_position s pid with
        | none =>
            unfold monitor_loop
            rw [h]
            simp [adjust_invocations]
        | some pd =>
            by_cases hst : pd.status = "active"
            · rw [monitor_loop_cons pid ci pu env rest s pd h hst]
              cases hlc : leg_check s pid "call" ci env.call_q env.adj with
              | triggered acts s1 =>
                  dsimp only
                  rw [leg_check_triggered_invocations s pid "call" ci env.call_q
                    env.adj acts s1 hlc]
                  simp
              | excepted acts =>
                  dsimp only
                  rw [leg_check_excepted_invocations s pid "call" ci env.call_q
                    env.adj acts hlc]
                  simp
              | pass acts1 =>
                  dsimp only
                  cases hlc2 : leg_check s pid "put" pu env.put_q env.adj with
                  | triggered acts s1 =>
                      dsimp only
                      rw [adjust_invocations_append,
                        leg_check_pass_invocations s pid "call" ci env.call_q
                          env.adj acts1 hlc,
                        leg_check_triggered_invocations s pid "put" pu env.put_q
                          env.adj acts s1 hlc2]
                      simp
                  | excepted acts =>
                      dsimp only
                      rw [adjust_invocations_append,
                        leg_check_pass_invocations s pid "call" ci env.call_q
                          env.adj acts1 hlc,
                        leg_check_excepted_invocations s pid "put" pu env.put_q
                          env.adj acts hlc2]
                      simp
                  | pass acts2 =>
                      dsimp only
                      rw [adjust_invocations_append, adjust_invocations_append,
                        leg_check_pass_invocations s pid "call" ci env.call_q
                          env.adj acts1 hlc,
                        leg_check_pass_invocations s pid "put" pu env.put_q
                          env.adj acts2 hlc2]
                      simpa using ih s
            · unfold monitor_loop
              rw [h]
              dsimp only
              rw [if_neg hst]
              simp [adjust_invocations]
  · intro s pid pd a b h
    rw [mark_stop_triggered_present s pid pd a h,
      mark_stop_triggered_present
        (set_position s pid { pd with stop_triggered := some a, status := "adjusting" })
        pid { pd with stop_triggered := some a, status := "adjusting" } b
        (by simp [set_position])]
    simp [set_position]

/-- C6 witness: the amended statement at a concrete run (one
double-trigger cycle) and a concrete double marking. -/
theorem C6_single_invocation_unguarded_marker_witness :
    (adjust_invocations
      (monitor_loop "pos1" (some "cs1") (some "ps1") [env_call_filled]
        ex_store).2.1).length ≤ 1 ∧
    mark_stop_triggered (mark_stop_triggered ex_store "pos1" "call") "pos1" "put"
        "pos1" =
      some { ex_pd with stop_triggered := some "put", status := "adjusting" } :=
  ⟨C6_single_invocation_unguarded_marker.1 "pos1" (some "cs1") (some "ps1")
      [env_call_filled] ex_store,
   C6_single_invocation_unguarded_marker.2 ex_store "pos1" ex_pd "call" "put" rfl⟩

/-- C7: within a poll cycle the call leg is checked first; a filled call
stop runs the adjustment synchronously in that same cycle, the put leg
is not queried, and the loop exits with no further polling.  In cycles
where the call stop responds not-filled, the call query still precedes
the put query. -/
theorem C7_call_checked_first :
    (∀ (s : Store) (pid : String) (pd : PositionData) (cid : String) (env : CycleEnv)
        (rest : List CycleEnv),
      get_position s pid = some pd → pd.status = "active" →
      pd.call.stop_order_id = some cid →
      env.call_q = QueryResult.resp true "filled" →
      queries_of (monitor_stop_orders s pid (env :: rest)).2.1 = [cid] ∧
      adjust_invocations (monitor_stop_orders s pid (env :: rest)).2.1 = ["call"] ∧
      (monitor_stop_orders s pid (env :: rest)).2.2 = MonitorExit.finished ∧
      (monitor_stop_orders s pid (env :: rest)).1 =
        (handle_stop_triggered s pid "call" env.adj).1) ∧
    (∀ (s : Store) (pid : String) (pd : PositionData) (cid qid : String)
        (env : CycleEnv) (rest : List CycleEnv) (ok : Bool) (st : String),
      get_position s pid = some pd → pd.status = "active" →
      pd.call.stop_order_id = some cid → pd.put.stop_order_id = some qid →
      env.call_q = QueryResult.resp ok st → ¬(ok = true ∧ st = "filled") →
      ∃ tl, queries_of (monitor_stop_orders s pid (env :: rest)).2.1 =
        cid :: qid :: tl) := by
  constructor
  · intro s pid pd cid env rest h hst hcid hq
    rw [monitor_trigger_first_cycle s pid pd cid env rest h hst hcid hq]
    refine ⟨?_, ?_, rfl, rfl⟩
    · rw [queries_of_cons_some (Action.query_order_status cid) cid _ (by rfl),
        queries_of_cons_none (Action.invoke_adjust "call") _ (by rfl),
        handle_no_query]
    · rw [adjust_invocations_cons_none (Action.query_order_status cid) _ (by rfl),
        adjust_invocations_cons_some (Action.invoke_adjust "call") "call" _ (by rfl),
        handle_no_invoke]
  · intro s pid pd cid qid env rest ok st h hst hcid hqid hq hnf
    unfold monitor_stop_orders
    rw [h]
    dsimp only
    rw [hcid, hqid, monitor_loop_cons pid _ _ env rest s pd h hst, hq,
      leg_check_not_filled s pid "call" cid ok st env.adj hnf]
    cases hpq : env.put_q with
    | raise_exc =>
        rw [leg_check_raise]
        dsimp only
        refine ⟨[], ?_⟩
        rw [queries_of_append,
          queries_of_cons_some (Action.query_order_status cid) cid _ (by rfl),
          queries_of_cons_some (Action.query_order_status qid) qid _ (by rfl)]
        rfl
    | resp ok2 st2 =>
        by_cases hf2 : ok2 = true ∧ st2 = "filled"
        · obtain ⟨ho, hs⟩ := hf2
          subst ho
          subst hs
          rw [leg_check_filled]
          dsimp only
          refine ⟨[], ?_⟩
          rw [queries_of_append,
            queries_of_cons_some (Action.query_order_status cid) cid _ (by rfl),
            queries_of_cons_some (Action.query_order_status qid) qid _ (by rfl),
            queries_of_cons_none (Action.invoke_adjust "put") _ (by rfl),
            handle_no_query]
          rfl
        · rw [leg_check_not_filled s pid "put" qid ok2 st2 env.adj hf2]
          dsimp only
          refine ⟨queries_of (monitor_loop pid (some cid) (some qid) rest s).2.1, ?_⟩
          rw [queries_of_append, queries_of_append,
            queries_of_cons_some (Action.query_order_status cid) cid _ (by rfl),
            queries_of_cons_some (Action.query_order_status qid) qid _ (by rfl)]
          rfl

/-- C7 witness: the trigger case on a double-trigger cycle (put also
filled, yet never queried) and the ordering case on a quiet cycle. -/
theorem C7_call_checked_first_witness :
    (queries_of (monitor_stop_orders ex_store "pos1" [env_call_filled]).2.1 =
        ["cs1"] ∧
      adjust_invocations (monitor_stop_orders ex_store "pos1" [env_call_filled]).2.1 =
        ["call"] ∧
      (monitor_stop_orders ex_store "pos1" [env_call_filled]).2.2 =
        MonitorExit.finished ∧
      (monitor_stop_orders ex_store "pos1" [env_call_filled]).1 =
        (handle_stop_triggered ex_store "pos1" "call" env_call_filled.adj).1) ∧
    (∃ tl, queries_of (monitor_stop_orders ex_store "pos1" [env_quiet]).2.1 =
      "cs1" :: "ps1" :: tl) :=
  ⟨C7_call_checked_first.1 ex_store "pos1" ex_pd "cs1" env_call_filled [] rfl rfl
      rfl rfl,
   C7_call_checked_first.2 ex_store "pos1" ex_pd "cs1" "ps1" env_quiet [] true
      "open" rfl rfl rfl rfl rfl (by decide)⟩

end Straddle
